import Mathlib

/-!
# Aqua-Mind water-quality firmware: verification of the scoring pipeline

Shallow embedding of the signal-trust and scoring pipeline of the Aqua-Mind
ESP32 firmware (file aquamind_esp32/aquamind_esp32.ino, final revision):
Tri-Check burst aggregation, the stability metric, the Jal-Score weighted
scoring engine, the verdict mapping, and the safety override in analyzeWater.

Sensor readings and scores are modelled as exact rationals (the firmware uses
IEEE floats); the final score is an integer obtained by C-style truncation
toward zero followed by an Arduino constrain to [0, 100].
-/

/-- Verdict categories, from getVerdict in the firmware. -/
inductive Verdict where
  | SAFE | ACCEPTABLE | CAUTION | UNSAFE
  deriving DecidableEq, Repr

open Verdict

/-- Severity order on verdicts: SAFE < ACCEPTABLE < CAUTION < UNSAFE. -/
def severity : Verdict → ℕ
  | SAFE => 0
  | ACCEPTABLE => 1
  | CAUTION => 2
  | UNSAFE => 3

/-- GeoProfile: region-specific scoring thresholds (struct GeoProfile).
The name/lat/lon fields are not used by the scoring engine and are omitted. -/
structure GeoProfile where
  tds_safe : ℤ
  tds_danger : ℤ
  turb_safe : ℚ
  turb_danger : ℚ
  deriving DecidableEq, Repr

/-- PROFILES[0], the default profile (activeProfileIndex = 0, Jabalpur). -/
def jabalpurProfile : GeoProfile :=
  { tds_safe := 300, tds_danger := 900, turb_safe := 1, turb_danger := 10 }

/-- The static registry PROFILES[] (scoring-relevant fields). -/
def PROFILES : List GeoProfile :=
  [ jabalpurProfile,
    { tds_safe := 400, tds_danger := 1200, turb_safe := 2, turb_danger := 10 },
    { tds_safe := 500, tds_danger := 1500, turb_safe := 1, turb_danger := 10 },
    { tds_safe := 300, tds_danger := 800, turb_safe := 1, turb_danger := 8 },
    { tds_safe := 400, tds_danger := 1000, turb_safe := 1, turb_danger := 10 },
    { tds_safe := 200, tds_danger := 700, turb_safe := 1, turb_danger := 8 } ]

/-- C-style cast of a rational to int: truncation toward zero. -/
def truncQ (q : ℚ) : ℤ :=
  if q < 0 then -(Int.floor (-q)) else Int.floor q

/-- Arduino constrain(x, lo, hi). -/
def constrainI (x lo hi : ℤ) : ℤ :=
  if x < lo then lo else if hi < x then hi else x

/-- TDS sub-score (calculateJalScore, TDS block): 100 at or below the
profile's tds_safe, 0 at or above tds_danger, linear in between. -/
def tdsScore (p : GeoProfile) (tds : ℚ) : ℚ :=
  if tds ≤ (p.tds_safe : ℚ) then 100
  else if (p.tds_danger : ℚ) ≤ tds then 0
  else 100 - ((tds - (p.tds_safe : ℚ)) / ((p.tds_danger : ℚ) - (p.tds_safe : ℚ))) * 100

/-- pH sub-score (calculateJalScore, pH block): inside [6.5, 8.5] a gentle
penalty of 15 per unit distance from 7.25; outside the band, 50 minus 25 per
unit distance from the band edge, floored at 0. -/
def phScore (ph : ℚ) : ℚ :=
  if 13/2 ≤ ph ∧ ph ≤ 17/2 then
    100 - |ph - 29/4| * 15
  else if ph < 13/2 then
    max 0 (50 - (13/2 - ph) * 25)
  else
    max 0 (50 - (ph - 17/2) * 25)

/-- Dissolved-oxygen sub-score (calculateJalScore, DO block): banded ranges. -/
def doScore (doLevel : ℚ) : ℚ :=
  if 6 ≤ doLevel ∧ doLevel ≤ 9 then 100
  else if 5 ≤ doLevel ∧ doLevel < 6 then 80
  else if 9 < doLevel ∧ doLevel ≤ 12 then 90
  else if doLevel < 5 then max 0 (50 - (5 - doLevel) * 20)
  else 70

/-- Turbidity sub-score (calculateJalScore, turbidity block): 100 at or below
turb_safe, 0 at or above turb_danger, linear in between. -/
def turbScore (p : GeoProfile) (turbidity : ℚ) : ℚ :=
  if turbidity ≤ p.turb_safe then 100
  else if p.turb_danger ≤ turbidity then 0
  else 100 - ((turbidity - p.turb_safe) / (p.turb_danger - p.turb_safe)) * 100

/-- Graduated stability penalty applied to the weighted score
(calculateJalScore, final if-chain): times 0.8 below 50% stability,
times 0.9 below 70%, unchanged otherwise. -/
def applyStabilityPenalty (stability jal : ℚ) : ℚ :=
  if stability < 50 then jal * (8/10)
  else if stability < 70 then jal * (9/10)
  else jal

/-- Weighted Jal-Score before penalty and truncation: weights
TDS 0.30, pH 0.25, DO 0.15, turbidity 0.15, stability 0.15. -/
def weightedScore (p : GeoProfile) (tds ph turbidity doLevel stability : ℚ) : ℚ :=
  tdsScore p tds * (30/100) + phScore ph * (25/100) + doScore doLevel * (15/100)
    + turbScore p turbidity * (15/100) + stability * (15/100)

/-- calculateJalScore: weighted sub-scores, graduated stability penalty,
then C-cast to int and constrain to [0, 100]. -/
def calculateJalScore (p : GeoProfile) (tds ph turbidity doLevel stability : ℚ) : ℤ :=
  constrainI (truncQ (applyStabilityPenalty stability
    (weightedScore p tds ph turbidity doLevel stability))) 0 100

/-- getVerdict: fixed thresholds 80 / 60 / 40. -/
def getVerdict (score : ℤ) : Verdict :=
  if 80 ≤ score then SAFE
  else if 60 ≤ score then ACCEPTABLE
  else if 40 ≤ score then CAUTION
  else UNSAFE

/-- Stability mapping of triCheck (line computing the stability output):
stability = max(50, 100 − CV·5), where CV is the coefficient of variation
of the collected samples, in percent. -/
def stabilityOfCV (cv : ℚ) : ℚ :=
  max 50 (100 - cv * 5)

/-- Grand mean over all collected samples (triCheck). -/
def triMean (s : List ℚ) : ℚ :=
  s.sum / s.length

/-- Population variance over all collected samples (triCheck). -/
def triVariance (s : List ℚ) : ℚ :=
  (s.map (fun x => (x - triMean s) ^ 2)).sum / s.length

/-- Modelled from the spec: the spec's clamp-first aggregation rule for
Tri-Check ("if a Sample Source returns a non-physical reading (e.g., negative
concentration), clamp to zero before aggregation"); the firmware's triCheck
has no such clamping, so this spec-side variant exists only to be compared
against triMean. -/
def triMeanClampedSpec (s : List ℚ) : ℚ :=
  (s.map (fun x => max 0 x)).sum / s.length

/-- Coefficient of variation computed by triCheck: (stdDev / mean) * 100 when
the mean is positive, 0 otherwise. The standard deviation sd is passed as an
argument; theorems characterize it as the nonnegative square root of
triVariance (sd ^ 2 = triVariance s and 0 ≤ sd), which keeps the definition
executable on the inputs the claims need. -/
def triCV (s : List ℚ) (sd : ℚ) : ℚ :=
  if 0 < triMean s then sd / triMean s * 100 else 0

/-- Overall stability in analyzeWater: arithmetic mean of the TDS and pH
Tri-Check stabilities. -/
def overallStability (stTds stPh : ℚ) : ℚ :=
  (stTds + stPh) / 2

/-- Fourth override branch of analyzeWater: stability below 40 demotes a
SAFE verdict to CAUTION and leaves every other verdict unchanged. -/
def stabilityEscalation (st : ℚ) (v : Verdict) : Verdict :=
  if st < 40 then (if v = SAFE then CAUTION else v) else v

/-- Safety-override block of analyzeWater: pH outside (4, 10) forces UNSAFE
and caps the score at 30; TDS above 800 the same; turbidity above 8 the same;
finally the stability escalation. The branches run sequentially on the
mutable (score, verdict) pair, mirroring the firmware. -/
def safetyOverride (tds ph turbidity st : ℚ) (score : ℤ) (v : Verdict) : ℤ × Verdict :=
  let r1 := if ph < 4 ∨ 10 < ph then (min score 30, UNSAFE) else (score, v)
  let r2 := if 800 < tds then (min r1.1 30, UNSAFE) else r1
  let r3 := if 8 < turbidity then (min r2.1 30, UNSAFE) else r2
  (r3.1, stabilityEscalation st r3.2)

/-- analyzeWater, scoring part: overall stability from the two Tri-Check
stabilities, Jal-Score, verdict, then the safety-override block. Returns the
final (jal_score, verdict) pair. -/
def analyzeWater (p : GeoProfile) (tds ph turbidity doLevel stTds stPh : ℚ) : ℤ × Verdict :=
  let st := overallStability stTds stPh
  let score := calculateJalScore p tds ph turbidity doLevel st
  safetyOverride tds ph turbidity st score (getVerdict score)

/-! ## Helper lemmas -/

theorem truncQ_eval (q : ℚ) (z : ℤ) (h0 : 0 ≤ z) (h1 : (z : ℚ) ≤ q) (h2 : q < z + 1) :
    truncQ q = z := by
  have hq : ¬ q < 0 := by
    push_neg
    exact le_trans (by exact_mod_cast h0) h1
  simp only [truncQ, if_neg hq]
  rw [Int.floor_eq_iff]
  constructor
  · exact h1
  · exact_mod_cast h2

theorem truncQ_mono {a b : ℚ} (h : a ≤ b) : truncQ a ≤ truncQ b := by
  unfold truncQ
  by_cases ha : a < 0 <;> by_cases hb : b < 0 <;> simp only [if_pos, if_neg, ha, hb, ite_true,
    ite_false]
  · have : -b ≤ -a := by linarith
    have := Int.floor_le_floor this
    omega
  · have h1 : -(Int.floor (-a)) ≤ 0 := by
      have : (0 : ℚ) ≤ -a := by linarith
      have := Int.floor_nonneg.mpr this
      omega
    have h2 : 0 ≤ Int.floor b := Int.floor_nonneg.mpr (by linarith)
    omega
  · exact absurd (lt_of_le_of_lt h hb) ha
  · exact Int.floor_le_floor h

theorem constrainI_mono {a b lo hi : ℤ} (hlo : lo ≤ hi) (h : a ≤ b) :
    constrainI a lo hi ≤ constrainI b lo hi := by
  unfold constrainI
  split <;> split <;> omega

theorem constrainI_mem (x lo hi : ℤ) (h : lo ≤ hi) :
    lo ≤ constrainI x lo hi ∧ constrainI x lo hi ≤ hi := by
  unfold constrainI
  split <;> [omega; split <;> omega]

theorem stabilityOfCV_ge_50 (cv : ℚ) : 50 ≤ stabilityOfCV cv :=
  le_max_left _ _

theorem overallStability_ge_50 (c1 c2 : ℚ) :
    50 ≤ overallStability (stabilityOfCV c1) (stabilityOfCV c2) := by
  have h1 := stabilityOfCV_ge_50 c1
  have h2 := stabilityOfCV_ge_50 c2
  unfold overallStability
  linarith

theorem calculateJalScore_mem (p : GeoProfile) (tds ph turbidity doLevel stability : ℚ) :
    0 ≤ calculateJalScore p tds ph turbidity doLevel stability ∧
      calculateJalScore p tds ph turbidity doLevel stability ≤ 100 :=
  constrainI_mem _ 0 100 (by omega)

theorem getVerdict_of_lt_40 {s : ℤ} (h : s < 40) : getVerdict s = UNSAFE := by
  unfold getVerdict
  split_ifs <;> first | rfl | omega

theorem stabilityEscalation_id {st : ℚ} (h : ¬ st < 40) (v : Verdict) :
    stabilityEscalation st v = v := by
  unfold stabilityEscalation
  rw [if_neg h]

theorem stabilityEscalation_UNSAFE (st : ℚ) : stabilityEscalation st UNSAFE = UNSAFE := by
  unfold stabilityEscalation
  split_ifs <;> first | rfl | assumption

theorem safetyOverride_triggered (tds ph turbidity st : ℚ) (score : ℤ) (v : Verdict)
    (h : (ph < 4 ∨ 10 < ph) ∨ 800 < tds ∨ 8 < turbidity) :
    (safetyOverride tds ph turbidity st score v).1 ≤ 30 ∧
      (safetyOverride tds ph turbidity st score v).2 = UNSAFE := by
  unfold safetyOverride
  rcases h with h | h | h
  · split_ifs <;> simp_all [stabilityEscalation_UNSAFE]
  · split_ifs <;> simp_all [stabilityEscalation_UNSAFE]
  · split_ifs <;> simp_all [stabilityEscalation_UNSAFE]

theorem safetyOverride_not_triggered (tds ph turbidity st : ℚ) (score : ℤ) (v : Verdict)
    (h1 : ¬ (ph < 4 ∨ 10 < ph)) (h2 : ¬ 800 < tds) (h3 : ¬ 8 < turbidity) :
    safetyOverride tds ph turbidity st score v = (score, stabilityEscalation st v) := by
  unfold safetyOverride
  simp only [if_neg h1, if_neg h2, if_neg h3]

theorem safetyOverride_fst_mem (tds ph turbidity st : ℚ) (score : ℤ) (v : Verdict)
    (h0 : 0 ≤ score) (h1 : score ≤ 100) :
    0 ≤ (safetyOverride tds ph turbidity st score v).1 ∧
      (safetyOverride tds ph turbidity st score v).1 ≤ 100 := by
  simp only [safetyOverride]
  split_ifs <;> simp <;> omega

theorem safetyOverride_fst_le (tds ph turbidity st : ℚ) (score : ℤ) (v : Verdict) :
    (safetyOverride tds ph turbidity st score v).1 ≤ score := by
  simp only [safetyOverride]
  split_ifs <;> simp

theorem severity_le_UNSAFE (v : Verdict) : severity v ≤ severity UNSAFE := by
  cases v <;> decide

theorem severity_stabilityEscalation (st : ℚ) (v : Verdict) :
    severity v ≤ severity (stabilityEscalation st v) := by
  unfold stabilityEscalation
  split_ifs with h1 h2
  · rw [h2]; decide
  · exact le_refl _
  · exact le_refl _

theorem safetyOverride_verdict_recompute (tds ph turbidity st : ℚ) (score : ℤ)
    (hst : ¬ st < 40) :
    (safetyOverride tds ph turbidity st score (getVerdict score)).2 =
      getVerdict (safetyOverride tds ph turbidity st score (getVerdict score)).1 := by
  by_cases h : (ph < 4 ∨ 10 < ph) ∨ 800 < tds ∨ 8 < turbidity
  · obtain ⟨hle, hun⟩ := safetyOverride_triggered tds ph turbidity st score (getVerdict score) h
    have h0 := safetyOverride_fst_le tds ph turbidity st score (getVerdict score)
    rw [hun, getVerdict_of_lt_40 (by omega)]
  · have h1 : ¬ (ph < 4 ∨ 10 < ph) := fun hh => h (Or.inl hh)
    have h2 : ¬ 800 < tds := fun hh => h (Or.inr (Or.inl hh))
    have h3 : ¬ 8 < turbidity := fun hh => h (Or.inr (Or.inr hh))
    rw [safetyOverride_not_triggered _ _ _ _ _ _ h1 h2 h3]
    simp [stabilityEscalation_id hst]

/-! ## Claim theorems -/

/-- C1: for every analysis cycle and all input readings and stability values,
the final jal_score produced after the scoring engine and the safety override
is an integer in [0, 100]. -/
theorem C1_final_jal_score_in_range (p : GeoProfile) (tds ph turbidity doLevel stTds stPh : ℚ) :
    0 ≤ (analyzeWater p tds ph turbidity doLevel stTds stPh).1 ∧
      (analyzeWater p tds ph turbidity doLevel stTds stPh).1 ≤ 100 := by
  simp only [analyzeWater]
  have h := calculateJalScore_mem p tds ph turbidity doLevel (overallStability stTds stPh)
  exact safetyOverride_fst_mem _ _ _ _ _ _ h.1 h.2

/-- C2: whenever the measured pH is outside [4, 10], the safety override
forces the verdict to UNSAFE and caps the jal_score at 30, regardless of how
the weighted formula scored the water. -/
theorem C2_ph_override_forces_unsafe (p : GeoProfile)
    (tds ph turbidity doLevel stTds stPh : ℚ) (h : ph < 4 ∨ 10 < ph) :
    (analyzeWater p tds ph turbidity doLevel stTds stPh).2 = UNSAFE ∧
      (analyzeWater p tds ph turbidity doLevel stTds stPh).1 ≤ 30 := by
  simp only [analyzeWater]
  have hh := safetyOverride_triggered tds ph turbidity (overallStability stTds stPh)
    (calculateJalScore p tds ph turbidity doLevel (overallStability stTds stPh))
    (getVerdict (calculateJalScore p tds ph turbidity doLevel (overallStability stTds stPh)))
    (Or.inl h)
  exact ⟨hh.2, hh.1⟩

/-- C2 witness: pH 3.5 with otherwise perfect readings yields verdict UNSAFE
and a score capped at 30. -/
theorem C2_witness :
    (analyzeWater jabalpurProfile 150 (7/2) (1/2) (15/2) 95 95).2 = UNSAFE ∧
      (analyzeWater jabalpurProfile 150 (7/2) (1/2) (15/2) 95 95).1 ≤ 30 :=
  C2_ph_override_forces_unsafe jabalpurProfile 150 (7/2) (1/2) (15/2) 95 95
    (Or.inl (by norm_num))

/-- C5: the verdict mapping uses the fixed thresholds: score ≥ 80 yields
SAFE, 60-79 yields ACCEPTABLE, 40-59 yields CAUTION, below 40 UNSAFE. -/
theorem C5_verdict_thresholds (s : ℤ) :
    (80 ≤ s → getVerdict s = SAFE) ∧
      (60 ≤ s ∧ s ≤ 79 → getVerdict s = ACCEPTABLE) ∧
      (40 ≤ s ∧ s ≤ 59 → getVerdict s = CAUTION) ∧
      (s < 40 → getVerdict s = UNSAFE) := by
  unfold getVerdict
  refine ⟨fun h => ?_, fun h => ?_, fun h => ?_, fun h => ?_⟩ <;>
    split_ifs <;> first | rfl | (exfalso; omega)

/-- C5 witness at the representative scores 85, 70, 50 and 10. -/
theorem C5_witness :
    getVerdict 85 = SAFE ∧ getVerdict 70 = ACCEPTABLE ∧ getVerdict 50 = CAUTION ∧
      getVerdict 10 = UNSAFE :=
  ⟨(C5_verdict_thresholds 85).1 (by decide), (C5_verdict_thresholds 70).2.1 (by decide),
    (C5_verdict_thresholds 50).2.2.1 (by decide), (C5_verdict_thresholds 10).2.2.2 (by decide)⟩

/-- C9: the 50-percent floor in triCheck makes the overall stability (mean of
the TDS and pH stabilities) at least 50 in every analysis cycle, so the
times-0.8 penalty branch of calculateJalScore (stability < 50) and the
stability < 40 override escalation of analyzeWater are unreachable. -/
theorem C9_stability_floor_unreachable_branches (c1 c2 jal : ℚ) (v : Verdict) :
    50 ≤ overallStability (stabilityOfCV c1) (stabilityOfCV c2) ∧
      applyStabilityPenalty (overallStability (stabilityOfCV c1) (stabilityOfCV c2)) jal =
        (if overallStability (stabilityOfCV c1) (stabilityOfCV c2) < 70
          then jal * (9/10) else jal) ∧
      stabilityEscalation (overallStability (stabilityOfCV c1) (stabilityOfCV c2)) v = v := by
  have h := overallStability_ge_50 c1 c2
  refine ⟨h, ?_, stabilityEscalation_id (by linarith) v⟩
  unfold applyStabilityPenalty
  rw [if_neg (by linarith)]

/-- C10: the safety override is conservative on every input: the score never
increases across the override block and the verdict never becomes less severe
(severity order SAFE < ACCEPTABLE < CAUTION < UNSAFE). -/
theorem C10_override_conservative (tds ph turbidity st : ℚ) (score : ℤ) (v : Verdict) :
    (safetyOverride tds ph turbidity st score v).1 ≤ score ∧
      severity v ≤ severity (safetyOverride tds ph turbidity st score v).2 := by
  refine ⟨safetyOverride_fst_le tds ph turbidity st score v, ?_⟩
  simp only [safetyOverride]
  split_ifs <;>
    first
      | exact le_trans (severity_le_UNSAFE v) (severity_stabilityEscalation st UNSAFE)
      | exact severity_stabilityEscalation st v

/-- C6: in the actual pipeline (stabilities produced by triCheck, hence at
least 50), the verdict finally reported equals the verdict mapping recomputed
on the final post-override jal_score. -/
theorem C6_verdict_pure_function_of_final_score (p : GeoProfile)
    (tds ph turbidity doLevel c1 c2 : ℚ) :
    (analyzeWater p tds ph turbidity doLevel (stabilityOfCV c1) (stabilityOfCV c2)).2 =
      getVerdict
        (analyzeWater p tds ph turbidity doLevel (stabilityOfCV c1) (stabilityOfCV c2)).1 := by
  simp only [analyzeWater]
  refine safetyOverride_verdict_recompute _ _ _ _ _ ?_
  have := overallStability_ge_50 c1 c2
  intro hc
  linarith

theorem triMean_replicate (x : ℚ) (n : ℕ) (hn : 0 < n) :
    triMean (List.replicate n x) = x := by
  unfold triMean
  rw [List.sum_replicate, List.length_replicate, nsmul_eq_mul]
  have hn0 : ((n : ℚ)) ≠ 0 := by
    exact_mod_cast Nat.pos_iff_ne_zero.mp hn
  field_simp

theorem triVariance_replicate (x : ℚ) (n : ℕ) (hn : 0 < n) :
    triVariance (List.replicate n x) = 0 := by
  unfold triVariance
  rw [List.map_replicate, triMean_replicate x n hn]
  simp

/-- C4: the triCheck stability is a monotonically non-increasing function of
the coefficient of variation of the collected samples, and equals 100 for
identical samples with positive mean (there the variance is 0, so the
standard deviation — the nonnegative sd with sd ^ 2 = triVariance — is 0 and
the CV is 0). -/
theorem C4_stability_antitone_in_cv :
    (∀ c1 c2 : ℚ, c1 ≤ c2 → stabilityOfCV c2 ≤ stabilityOfCV c1) ∧
      (∀ (x : ℚ) (n : ℕ) (sd : ℚ), 0 < x → 0 < n →
        sd ^ 2 = triVariance (List.replicate n x) → 0 ≤ sd →
        triCV (List.replicate n x) sd = 0 ∧
          stabilityOfCV (triCV (List.replicate n x) sd) = 100) := by
  constructor
  · intro c1 c2 h
    unfold stabilityOfCV
    exact max_le_max (le_refl 50) (by linarith)
  · intro x n sd hx hn hsd hsd0
    have hm := triMean_replicate x n hn
    have hv := triVariance_replicate x n hn
    have hsd2 : sd ^ 2 = 0 := by rw [hsd, hv]
    have hsd' : sd = 0 := by
      exact pow_eq_zero_iff (by norm_num) |>.mp hsd2
    have hcv : triCV (List.replicate n x) sd = 0 := by
      unfold triCV
      rw [hm, hsd', if_pos hx]
      ring
    refine ⟨hcv, ?_⟩
    rw [hcv]
    unfold stabilityOfCV
    norm_num

/-- C4 witness: CV 2 versus CV 3, and a burst of 15 identical samples of
value 1 (positive mean, zero variance) giving stability 100. -/
theorem C4_witness :
    stabilityOfCV 3 ≤ stabilityOfCV 2 ∧
      stabilityOfCV (triCV (List.replicate 15 (1 : ℚ)) 0) = 100 :=
  ⟨C4_stability_antitone_in_cv.1 2 3 (by norm_num),
    (C4_stability_antitone_in_cv.2 1 15 0 (by norm_num) (by norm_num)
      (by rw [triVariance_replicate 1 15 (by norm_num)]; norm_num) (le_refl 0)).2⟩

theorem sum_le_sum_clamped (s : List ℚ) :
    s.sum ≤ (s.map (fun x => max 0 x)).sum := by
  induction s with
  | nil => simp
  | cons a t ih =>
    simp only [List.sum_cons, List.map_cons]
    have := le_max_right (0 : ℚ) a
    linarith

theorem sum_lt_sum_clamped (s : List ℚ) :
    (∃ x ∈ s, x < 0) → s.sum < (s.map (fun x => max 0 x)).sum := by
  induction s with
  | nil => intro h; simp at h
  | cons a t ih =>
    intro h
    simp only [List.sum_cons, List.map_cons]
    rcases h with ⟨x, hx, hneg⟩
    rcases List.mem_cons.mp hx with rfl | hx
    · have h1 : x < max 0 x := lt_of_lt_of_le hneg (le_max_left 0 x)
      have h2 := sum_le_sum_clamped t
      linarith
    · have h1 := ih ⟨x, hx, hneg⟩
      have h2 := le_max_right (0 : ℚ) a
      linarith

/-- C8 counterexample: for the burst [-15, 15, 0, ..., 0] (15 samples, one of
them non-physical), triCheck aggregates the raw mean 0, while clamp-first
aggregation would give mean 1: the firmware does not clamp negative readings
before aggregation. -/
theorem C8_counterexample :
    triMean [-15, 15, 0, 0, 0, 0, 0, 0, 0, 0, 0, 0, 0, 0, 0] = 0 ∧
      triMeanClampedSpec [-15, 15, 0, 0, 0, 0, 0, 0, 0, 0, 0, 0, 0, 0, 0] = 1 ∧
      triMean [-15, 15, 0, 0, 0, 0, 0, 0, 0, 0, 0, 0, 0, 0, 0] ≠
        triMeanClampedSpec [-15, 15, 0, 0, 0, 0, 0, 0, 0, 0, 0, 0, 0, 0, 0] := by
  refine ⟨?_, ?_, ?_⟩ <;> norm_num [triMean, triMeanClampedSpec]

/-- C8 amended: triCheck aggregates raw samples without clamping negative
readings, so its mean is at most the spec's clamp-first mean, and strictly
below it whenever some sample is negative. -/
theorem C8_amended_no_clamping (s : List ℚ) (hne : s ≠ []) :
    triMean s ≤ triMeanClampedSpec s ∧
      ((∃ x ∈ s, x < 0) → triMean s < triMeanClampedSpec s) := by
  have hlen : (0 : ℚ) < s.length := by
    have h := List.length_pos.mpr hne
    exact_mod_cast h
  constructor
  · unfold triMean triMeanClampedSpec
    exact div_le_div_of_nonneg_right (sum_le_sum_clamped s) hlen.le
  · intro h
    unfold triMean triMeanClampedSpec
    exact div_lt_div_of_pos_right (sum_lt_sum_clamped s h) hlen

/-- C8 witness for the amended claim, at the counterexample burst. -/
theorem C8_witness :
    triMean [-15, 15, 0, 0, 0, 0, 0, 0, 0, 0, 0, 0, 0, 0, 0] <
      triMeanClampedSpec [-15, 15, 0, 0, 0, 0, 0, 0, 0, 0, 0, 0, 0, 0, 0] :=
  (C8_amended_no_clamping [-15, 15, 0, 0, 0, 0, 0, 0, 0, 0, 0, 0, 0, 0, 0]
    (by simp)).2 ⟨-15, by simp, by norm_num⟩

theorem calculateJalScore_scenario_650 :
    calculateJalScore jabalpurProfile 650 7 8 6 60 = 57 := by
  unfold calculateJalScore
  have hW : applyStabilityPenalty 60 (weightedScore jabalpurProfile 650 7 8 6 60)
      = 9201/160 := by
    unfold applyStabilityPenalty weightedScore tdsScore phScore doScore turbScore
      jabalpurProfile
    norm_num [abs_of_nonpos, abs_of_nonneg]
  rw [hW, truncQ_eval _ 57 (by omega) (by norm_num) (by norm_num)]
  decide

theorem analyzeWater_scenario_650 :
    analyzeWater jabalpurProfile 650 7 8 6 60 60 = (57, CAUTION) := by
  have hst : overallStability 60 60 = 60 := by norm_num [overallStability]
  simp only [analyzeWater, hst, calculateJalScore_scenario_650]
  rw [safetyOverride_not_triggered 650 7 8 60 57 (getVerdict 57)
    (by norm_num) (by norm_num) (by norm_num)]
  rw [stabilityEscalation_id (by norm_num)]
  decide

/-- C7 counterexample: for readings tds 650, turbidity exactly 8.0, pH 7.0,
DO 6.0 and overall stability 60, the firmware's turbidity override does NOT
trigger (the condition is turbidity > 8.0, strict): the analysis yields
score 57 and verdict CAUTION, not a forced UNSAFE with score ≤ 30 as the
claim (threshold turbidity ≥ 8.0) asserts. -/
theorem C7_counterexample :
    analyzeWater jabalpurProfile 650 7 8 6 60 60 = (57, CAUTION) ∧
      ¬ ((analyzeWater jabalpurProfile 650 7 8 6 60 60).2 = UNSAFE ∧
          (analyzeWater jabalpurProfile 650 7 8 6 60 60).1 ≤ 30) := by
  refine ⟨analyzeWater_scenario_650, ?_⟩
  rw [analyzeWater_scenario_650]
  intro h
  exact absurd h.1 (by decide)

/-- C7 amended: with readings tds 650, pH 7.0, DO 6.0 and overall stability
60, the turbidity override triggers only for turbidity strictly greater than
8.0 NTU, forcing verdict UNSAFE and capping the score at 30; at turbidity
exactly 8.0 NTU no override fires and the analysis yields score 57, verdict
CAUTION. -/
theorem C7_amended_turbidity_strict_threshold :
    (∀ turbidity : ℚ, 8 < turbidity →
        (analyzeWater jabalpurProfile 650 7 turbidity 6 60 60).2 = UNSAFE ∧
          (analyzeWater jabalpurProfile 650 7 turbidity 6 60 60).1 ≤ 30) ∧
      analyzeWater jabalpurProfile 650 7 8 6 60 60 = (57, CAUTION) := by
  refine ⟨fun turbidity h => ?_, analyzeWater_scenario_650⟩
  simp only [analyzeWater]
  have hh := safetyOverride_triggered 650 7 turbidity (overallStability 60 60)
    (calculateJalScore jabalpurProfile 650 7 turbidity 6 (overallStability 60 60))
    (getVerdict (calculateJalScore jabalpurProfile 650 7 turbidity 6 (overallStability 60 60)))
    (Or.inr (Or.inr h))
  exact ⟨hh.2, hh.1⟩

/-- C7 witness for the amended claim: turbidity 9 NTU does trigger the
override. -/
theorem C7_witness :
    (analyzeWater jabalpurProfile 650 7 9 6 60 60).2 = UNSAFE ∧
      (analyzeWater jabalpurProfile 650 7 9 6 60 60).1 ≤ 30 :=
  C7_amended_turbidity_strict_threshold.1 9 (by norm_num)

theorem mid_le_100 (S D x : ℚ) (hSD : S < D) (hx : S < x) :
    100 - ((x - S) / (D - S)) * 100 ≤ 100 := by
  have h := div_nonneg (by linarith : (0:ℚ) ≤ x - S) (by linarith : (0:ℚ) ≤ D - S)
  linarith

theorem mid_nonneg (S D x : ℚ) (hSD : S < D) (hx : x < D) :
    0 ≤ 100 - ((x - S) / (D - S)) * 100 := by
  have h : (x - S) / (D - S) ≤ 1 := (div_le_one (by linarith)).mpr (by linarith)
  linarith

theorem mid_anti (S D : ℚ) (hSD : S < D) {t u : ℚ} (h : t ≤ u) :
    100 - ((u - S) / (D - S)) * 100 ≤ 100 - ((t - S) / (D - S)) * 100 := by
  have hdiv : (t - S) / (D - S) ≤ (u - S) / (D - S) :=
    div_le_div_of_nonneg_right (by linarith) (by linarith)
  linarith

theorem rampDown_anti (S D : ℚ) (hSD : S < D) {t u : ℚ} (h : t ≤ u) :
    (if u ≤ S then (100:ℚ) else if D ≤ u then 0 else 100 - ((u - S) / (D - S)) * 100) ≤
      (if t ≤ S then (100:ℚ) else if D ≤ t then 0 else 100 - ((t - S) / (D - S)) * 100) := by
  rcases le_or_lt u S with hu1 | hu1
  · rw [if_pos hu1, if_pos (le_trans h hu1)]
  · rw [if_neg (not_le.mpr hu1)]
    rcases le_or_lt D u with hu2 | hu2
    · rw [if_pos hu2]
      rcases le_or_lt t S with ht1 | ht1
      · rw [if_pos ht1]; norm_num
      · rw [if_neg (not_le.mpr ht1)]
        rcases le_or_lt D t with ht2 | ht2
        · rw [if_pos ht2]
        · rw [if_neg (not_le.mpr ht2)]
          exact mid_nonneg S D t hSD ht2
    · rw [if_neg (not_le.mpr hu2)]
      rcases le_or_lt t S with ht1 | ht1
      · rw [if_pos ht1]
        exact mid_le_100 S D u hSD hu1
      · rw [if_neg (not_le.mpr ht1)]
        rw [if_neg (not_le.mpr (lt_of_le_of_lt h hu2))]
        exact mid_anti S D hSD h

theorem phScore_anti_upper {a b : ℚ} (ha : 29/4 ≤ a) (hab : a ≤ b) :
    phScore b ≤ phScore a := by
  unfold phScore
  rcases le_or_lt b (17/2) with hb | hb
  · rw [if_pos (⟨by linarith, by linarith⟩ : 13/2 ≤ a ∧ a ≤ 17/2),
      if_pos (⟨by linarith, hb⟩ : 13/2 ≤ b ∧ b ≤ 17/2),
      abs_of_nonneg (by linarith : (0:ℚ) ≤ a - 29/4),
      abs_of_nonneg (by linarith : (0:ℚ) ≤ b - 29/4)]
    linarith
  · have hB1 : ¬ (13/2 ≤ b ∧ b ≤ 17/2) := fun hc => absurd hc.2 (not_le.mpr hb)
    have hmb : max 0 (50 - (b - 17/2) * 25) ≤ 50 := by
      have hb0 : (0:ℚ) ≤ (b - 17/2) * 25 := by nlinarith
      exact max_le (by norm_num) (by linarith)
    rcases le_or_lt a (17/2) with ha2 | ha2
    · rw [if_pos (⟨by linarith, ha2⟩ : 13/2 ≤ a ∧ a ≤ 17/2), if_neg hB1,
        if_neg (not_lt.mpr (by linarith : 13/2 ≤ b)),
        abs_of_nonneg (by linarith : (0:ℚ) ≤ a - 29/4)]
      have h1 : a - 29/4 ≤ 5/4 := by linarith
      linarith
    · rw [if_neg (fun hc => absurd hc.2 (not_le.mpr ha2) : ¬ (13/2 ≤ a ∧ a ≤ 17/2)),
        if_neg hB1, if_neg (not_lt.mpr (by linarith : 13/2 ≤ a)),
        if_neg (not_lt.mpr (by linarith : 13/2 ≤ b))]
      exact max_le_max (le_refl 0) (by linarith)

theorem phScore_mono_lower {a b : ℚ} (hab : a ≤ b) (hb : b ≤ 29/4) :
    phScore a ≤ phScore b := by
  unfold phScore
  rcases le_or_lt (13/2) a with ha | ha
  · rw [if_pos (⟨ha, by linarith⟩ : 13/2 ≤ a ∧ a ≤ 17/2),
      if_pos (⟨by linarith, by linarith⟩ : 13/2 ≤ b ∧ b ≤ 17/2),
      abs_of_nonpos (by linarith : a - 29/4 ≤ 0),
      abs_of_nonpos (by linarith : b - 29/4 ≤ 0)]
    linarith
  · have hA1 : ¬ (13/2 ≤ a ∧ a ≤ 17/2) := fun hc => absurd hc.1 (not_le.mpr ha)
    have hma : max 0 (50 - (13/2 - a) * 25) ≤ 50 := by
      have ha0 : (0:ℚ) ≤ (13/2 - a) * 25 := by nlinarith
      exact max_le (by norm_num) (by linarith)
    rcases le_or_lt (13/2) b with hb2 | hb2
    · rw [if_neg hA1, if_pos (ha : a < 13/2),
        if_pos (⟨hb2, by linarith⟩ : 13/2 ≤ b ∧ b ≤ 17/2),
        abs_of_nonpos (by linarith : b - 29/4 ≤ 0)]
      have h1 : 29/4 - b ≤ 3/4 := by linarith
      linarith
    · rw [if_neg hA1, if_pos (ha : a < 13/2),
        if_neg (fun hc => absurd hc.1 (not_le.mpr hb2) : ¬ (13/2 ≤ b ∧ b ≤ 17/2)),
        if_pos (hb2 : b < 13/2)]
      exact max_le_max (le_refl 0) (by linarith)

theorem tdsScore_anti (p : GeoProfile) (hp : p.tds_safe < p.tds_danger) {t u : ℚ}
    (h : t ≤ u) : tdsScore p u ≤ tdsScore p t := by
  have hq : ((p.tds_safe : ℚ)) < ((p.tds_danger : ℚ)) := by exact_mod_cast hp
  unfold tdsScore
  exact rampDown_anti _ _ hq h

theorem turbScore_anti (p : GeoProfile) (hp : p.turb_safe < p.turb_danger) {t u : ℚ}
    (h : t ≤ u) : turbScore p u ≤ turbScore p t := by
  unfold turbScore
  exact rampDown_anti _ _ hp h

theorem calcScore_le_of_weighted_le (st : ℚ) {w1 w2 : ℚ} (h : w1 ≤ w2) :
    constrainI (truncQ (applyStabilityPenalty st w1)) 0 100 ≤
      constrainI (truncQ (applyStabilityPenalty st w2)) 0 100 := by
  refine constrainI_mono (by omega) (truncQ_mono ?_)
  unfold applyStabilityPenalty
  split_ifs
  · linarith
  · linarith
  · exact h

/-- C3: holding all other inputs fixed, the Jal-Score is monotonically
non-increasing in each danger-direction input: a larger TDS never increases
it, a larger turbidity never increases it, and moving the pH farther from the
optimal 7.25 on either side never increases it (the two pH conjuncts: above
the optimum the score is antitone, below it the score is monotone). -/
theorem C3_jal_score_antitone_in_danger_inputs (p : GeoProfile)
    (hTds : p.tds_safe < p.tds_danger) (hTurb : p.turb_safe < p.turb_danger)
    (tds ph turbidity doLevel stability : ℚ) :
    (∀ t u : ℚ, t ≤ u →
        calculateJalScore p u ph turbidity doLevel stability ≤
          calculateJalScore p t ph turbidity doLevel stability) ∧
      (∀ t u : ℚ, t ≤ u →
        calculateJalScore p tds ph u doLevel stability ≤
          calculateJalScore p tds ph t doLevel stability) ∧
      (∀ a b : ℚ, 29/4 ≤ a → a ≤ b →
        calculateJalScore p tds b turbidity doLevel stability ≤
          calculateJalScore p tds a turbidity doLevel stability) ∧
      (∀ a b : ℚ, a ≤ b → b ≤ 29/4 →
        calculateJalScore p tds a turbidity doLevel stability ≤
          calculateJalScore p tds b turbidity doLevel stability) := by
  refine ⟨fun t u h => ?_, fun t u h => ?_, fun a b ha h => ?_, fun a b h hb => ?_⟩
  · have hsub := tdsScore_anti p hTds h
    unfold calculateJalScore
    refine calcScore_le_of_weighted_le stability ?_
    unfold weightedScore
    linarith
  · have hsub := turbScore_anti p hTurb h
    unfold calculateJalScore
    refine calcScore_le_of_weighted_le stability ?_
    unfold weightedScore
    linarith
  · have hsub := phScore_anti_upper ha h
    unfold calculateJalScore
    refine calcScore_le_of_weighted_le stability ?_
    unfold weightedScore
    linarith
  · have hsub := phScore_mono_lower h hb
    unfold calculateJalScore
    refine calcScore_le_of_weighted_le stability ?_
    unfold weightedScore
    linarith

/-- C3 witness: under the Jabalpur profile, raising TDS from 350 to 400 ppm
does not increase the score. -/
theorem C3_witness :
    calculateJalScore jabalpurProfile 400 7 2 7 90 ≤
      calculateJalScore jabalpurProfile 350 7 2 7 90 :=
  (C3_jal_score_antitone_in_danger_inputs jabalpurProfile (by decide)
    (by norm_num [jabalpurProfile]) 350 7 2 7 90).1 350 400 (by norm_num)
